import Mathlib

/-! gtk-load-texture: shader build contract and GPU resource lifecycle.

A shallow embedding of `texture_example.cpp` (the `MyGLArea` widget) and
`texture_example.c` (the procedural `on_render` callback).

The programs talk to three collaborators: the OpenGL driver, the toolkit
(`make_current`, the parent class handlers) and the logger (`g_warning`,
`g_print`).  Every call that crosses that boundary is recorded, in program
order, in a mock `Gpu` state; everything a collaborator answers (object
names, compile and link status, info logs, the decoded image, the value of
`glGetError`) is read from a `Driver` oracle, so that the theorems hold for
every behaviour of the collaborators.
-/

namespace GtkLoadTexture

/-! ## The boundary -/

/-- Object names handed out by the driver. -/
abbrev GLuint := Nat

/-- Single-precision values are modelled by the rational they denote.  Every
float constant of the two programs (`-1.0f`, `0.0f`, `1.0f`) is exactly
representable, and the only arithmetic, `1.0 - y` in the vertex shader, is
exact on them. -/
abbrev GLfloat := ℚ

/-- The symbolic constants of `epoxy/gl.h` that the programs use. -/
inductive GLenum
  | GL_VERTEX_SHADER
  | GL_FRAGMENT_SHADER
  | GL_COMPILE_STATUS
  | GL_LINK_STATUS
  | GL_TEXTURE_2D
  | GL_TEXTURE_WRAP_S
  | GL_TEXTURE_WRAP_T
  | GL_TEXTURE_MIN_FILTER
  | GL_TEXTURE_MAG_FILTER
  | GL_REPEAT
  | GL_LINEAR
  | GL_RGBA
  | GL_UNSIGNED_BYTE
  | GL_ARRAY_BUFFER
  | GL_ELEMENT_ARRAY_BUFFER
  | GL_STATIC_DRAW
  | GL_FLOAT
  | GL_TRIANGLES
  | GL_UNSIGNED_INT
  | GL_COLOR_BUFFER_BIT
  | GL_DEPTH_BUFFER_BIT
  deriving DecidableEq, Repr

/-- The value `glGetError` returns when no error is pending. -/
def GL_NO_ERROR : Nat := 0

/-- The data argument of `glBufferData`. -/
inductive BufferData
  | floats (xs : List GLfloat)
  | uints (xs : List Nat)
  deriving DecidableEq

/-- One call across the boundary.  A call that returns an object name
records the name it returned in its last argument. -/
inductive Call
  | glGetError
  | glCreateShader (type : GLenum) (ret : GLuint)
  | glShaderSource (shader : GLuint) (count : Nat) (src : String)
  | glCompileShader (shader : GLuint)
  | glGetShaderiv (shader : GLuint) (pname : GLenum)
  | glGetShaderInfoLog (shader : GLuint) (bufSize : Nat)
  | glCreateProgram (ret : GLuint)
  | glAttachShader (program shader : GLuint)
  | glLinkProgram (program : GLuint)
  | glGetProgramiv (program : GLuint) (pname : GLenum)
  | glGetProgramInfoLog (program : GLuint) (bufSize : Nat)
  | glDeleteShader (shader : GLuint)
  | glGenTextures (n : Nat) (ret : GLuint)
  | glBindTexture (target : GLenum) (texture : GLuint)
  | glTexParameteri (target pname param : GLenum)
  | glTexImage2D (target : GLenum) (level : Nat) (internalformat : GLenum)
      (width height : Int) (border : Nat) (format type : GLenum) (pixels : List Nat)
  | glGenerateMipmap (target : GLenum)
  | glGenVertexArrays (n : Nat) (ret : GLuint)
  | glGenBuffers (n : Nat) (ret : GLuint)
  | glBindVertexArray (array : GLuint)
  | glBindBuffer (target : GLenum) (buffer : GLuint)
  | glBufferData (target : GLenum) (size : Nat) (data : BufferData) (usage : GLenum)
  | glVertexAttribPointer (index size : Nat) (type : GLenum) (normalized : Bool)
      (stride pointer : Nat)
  | glEnableVertexAttribArray (index : Nat)
  | glClear (mask : List GLenum)
  | glUseProgram (program : GLuint)
  | glDrawElements (mode : GLenum) (count : Nat) (type : GLenum) (indices : Nat)
  | glDeleteBuffers (n : Nat) (buffer : GLuint)
  | glDeleteVertexArrays (n : Nat) (array : GLuint)
  | glDeleteTextures (n : Nat) (texture : GLuint)
  | glDeleteProgram (program : GLuint)
  | make_current
  | GLArea_on_realize
  | GLArea_on_unrealize
  | stbi_load (filename : String) (req_comp : Nat)
  | stbi_image_free
  deriving DecidableEq

/-- A C char: one byte. -/
abbrev CChar := Fin 256

/-- The chars of a C string, in order, without the terminating NUL. -/
abbrev CString := List CChar

/-- An argument passed after the format string of a logging call. -/
inductive Arg
  | str (s : CString)
  | int (n : Int)
  deriving DecidableEq

/-- What the logging collaborator receives: the call made, its format string
and the arguments that follow it. -/
inductive Message
  | g_warning (format : String) (args : List Arg)
  | g_print (format : String) (args : List Arg)
  | printf (format : String) (args : List Arg)
  deriving DecidableEq

/-- The arguments of a logging call. -/
def Message.args : Message → List Arg
  | .g_warning _ args => args
  | .g_print _ args => args
  | .printf _ args => args

/-- The C string of a `%s` argument. -/
def Arg.text : Arg → Option CString
  | .str s => some s
  | .int _ => none

/-- The C strings a logging call passes for its `%s` conversions. -/
def Message.texts (m : Message) : List CString := m.args.filterMap Arg.text

/-- A decoded image as `stbi_load` hands it back. -/
structure Image where
  width : Int
  height : Int
  channels : Int
  pixels : List Nat
  deriving DecidableEq

/-- The answers of the collaborators. -/
structure Driver where
  /-- the value `glGetError` returns in `on_realize` -/
  glGetError : Nat
  /-- the name returned by the k-th object creation (`glGen*`, `glCreate*`) -/
  genName : Nat → GLuint
  /-- `GL_COMPILE_STATUS` of a source compiled for a stage -/
  compileStatus : GLenum → String → Bool
  /-- the compiler's complete info log for a source compiled for a stage -/
  shaderInfoLog : GLenum → String → CString
  /-- `GL_LINK_STATUS` of the program -/
  linkStatus : Bool
  /-- the linker's complete info log -/
  programInfoLog : CString
  /-- the result of decoding `GTK.png`; `none` is the null pointer -/
  image : Option Image

/-- The mock boundary: the calls made so far, the messages logged so far and
the number of object names handed out so far. -/
structure Gpu where
  calls : List Call
  log : List Message
  names : Nat
  deriving DecidableEq

/-- A boundary on which nothing has happened yet. -/
def Gpu.fresh : Gpu := ⟨[], [], 0⟩

/-- Record one call. -/
def Gpu.emit (g : Gpu) (c : Call) : Gpu := { g with calls := g.calls ++ [c] }

/-- Record one message. -/
def Gpu.say (g : Gpu) (m : Message) : Gpu := { g with log := g.log ++ [m] }

/-- Take the next object name from the driver. -/
def Gpu.gen (drv : Driver) (g : Gpu) : GLuint × Gpu :=
  (drv.genName g.names, { g with names := g.names + 1 })

/-- The calls made between two boundary states. -/
def emitted (before after : Gpu) : List Call := after.calls.drop before.calls.length

/-- The messages logged between two boundary states. -/
def logged (before after : Gpu) : List Message := after.log.drop before.log.length

/-- The C string that `glGetShaderInfoLog` / `glGetProgramInfoLog` leave in a
`char` buffer of `bufSize` bytes: the driver copies at most `bufSize - 1`
bytes of its log and ends them with a NUL, and the string read back through
`%s` stops at the first NUL. -/
def readInfoLog (bufSize : Nat) (full : CString) : CString :=
  (full.take (bufSize - 1)).takeWhile (fun c => c ≠ 0)

/-! ## The shader sources -/

def vertex_shader_src : String :=
  "\n#version 330 core\nlayout(location = 0) in vec2 aPos;\nlayout(location = 1) in vec2 aTexCoord;\nout vec2 TexCoord;\nvoid main() \x7b\n  gl_Position = vec4(aPos, 0.0, 1.0);\n  TexCoord = vec2(aTexCoord.x, 1.0 - aTexCoord.y); // Flip texture vertically\n\x7d\n"

def fragment_shader_src : String :=
  "\n#version 330 core\nout vec4 FragColor;\nin vec2 TexCoord;\nuniform sampler2D texture1;\nvoid main() \x7b\n  FragColor = texture(texture1, TexCoord);\n\x7d\n"

/-! ## `compile_shader` and `create_shader_program` (both files, identical) -/

def compile_shader (drv : Driver) (type : GLenum) (src : String) (g : Gpu) : GLuint × Gpu :=
  let (shader, g) := g.gen drv
  let g := g.emit (.glCreateShader type shader)
  let g := g.emit (.glShaderSource shader 1 src)
  let g := g.emit (.glCompileShader shader)
  let g := g.emit (.glGetShaderiv shader .GL_COMPILE_STATUS)
  let success := drv.compileStatus type src
  let g :=
    if !success then
      let g := g.emit (.glGetShaderInfoLog shader 512)
      let infoLog := readInfoLog 512 (drv.shaderInfoLog type src)
      g.say (.g_warning "Shader compilation failed: %s" [.str infoLog])
    else g
  (shader, g)

def create_shader_program (drv : Driver) (g : Gpu) : GLuint × Gpu :=
  let (vertex_shader, g) := compile_shader drv .GL_VERTEX_SHADER vertex_shader_src g
  let (fragment_shader, g) := compile_shader drv .GL_FRAGMENT_SHADER fragment_shader_src g
  let (shader_program, g) := g.gen drv
  let g := g.emit (.glCreateProgram shader_program)
  let g := g.emit (.glAttachShader shader_program vertex_shader)
  let g := g.emit (.glAttachShader shader_program fragment_shader)
  let g := g.emit (.glLinkProgram shader_program)
  let g := g.emit (.glGetProgramiv shader_program .GL_LINK_STATUS)
  let success := drv.linkStatus
  let g :=
    if !success then
      let g := g.emit (.glGetProgramInfoLog shader_program 512)
      let infoLog := readInfoLog 512 drv.programInfoLog
      g.say (.g_warning "Shader program linking failed: %s" [.str infoLog])
    else g
  let g := g.emit (.glDeleteShader vertex_shader)
  let g := g.emit (.glDeleteShader fragment_shader)
  (shader_program, g)

/-! ## The quad -/

def sizeof_float : Nat := 4

def sizeof_unsigned_int : Nat := 4

def vertices : List GLfloat :=
  [-1, -1, 0, 0,
    1, -1, 1, 0,
    1, 1, 1, 1,
   -1, 1, 0, 1]

def indices : List Nat :=
  [0, 1, 2,
   2, 3, 0]

/-! ## `MyGLArea` (texture_example.cpp) -/

structure MyGLArea where
  shader_program : GLuint
  texture : GLuint
  VAO : GLuint
  VBO : GLuint
  EBO : GLuint
  initialized : Bool
  deriving DecidableEq

/-- The constructor's member initialisers. -/
def MyGLArea.new : MyGLArea := ⟨0, 0, 0, 0, 0, false⟩

def MyGLArea.init_buffers (drv : Driver) (w : MyGLArea) (g : Gpu) : MyGLArea × Gpu :=
  -- Load texture
  let (texture, g) := g.gen drv
  let g := g.emit (.glGenTextures 1 texture)
  let w := { w with texture := texture }
  let g := g.emit (.glBindTexture .GL_TEXTURE_2D w.texture)
  let g := g.emit (.glTexParameteri .GL_TEXTURE_2D .GL_TEXTURE_WRAP_S .GL_REPEAT)
  let g := g.emit (.glTexParameteri .GL_TEXTURE_2D .GL_TEXTURE_WRAP_T .GL_REPEAT)
  let g := g.emit (.glTexParameteri .GL_TEXTURE_2D .GL_TEXTURE_MIN_FILTER .GL_LINEAR)
  let g := g.emit (.glTexParameteri .GL_TEXTURE_2D .GL_TEXTURE_MAG_FILTER .GL_LINEAR)
  let g := g.emit (.stbi_load "GTK.png" 4)
  let g :=
    match drv.image with
    | some image =>
      let g := g.say (.g_print "Image loaded: %dx%d, %d channels\n"
        [.int image.width, .int image.height, .int image.channels])
      let g := g.emit (.glTexImage2D .GL_TEXTURE_2D 0 .GL_RGBA image.width image.height 0
        .GL_RGBA .GL_UNSIGNED_BYTE image.pixels)
      let g := g.emit (.glGenerateMipmap .GL_TEXTURE_2D)
      g.emit .stbi_image_free
    | none => g.say (.g_warning "Failed to load texture" [])
  -- Set up vertex data
  let (VAO, g) := g.gen drv
  let g := g.emit (.glGenVertexArrays 1 VAO)
  let w := { w with VAO := VAO }
  let (VBO, g) := g.gen drv
  let g := g.emit (.glGenBuffers 1 VBO)
  let w := { w with VBO := VBO }
  let (EBO, g) := g.gen drv
  let g := g.emit (.glGenBuffers 1 EBO)
  let w := { w with EBO := EBO }
  let g := g.emit (.glBindVertexArray w.VAO)
  let g := g.emit (.glBindBuffer .GL_ARRAY_BUFFER w.VBO)
  let g := g.emit (.glBufferData .GL_ARRAY_BUFFER (vertices.length * sizeof_float)
    (.floats vertices) .GL_STATIC_DRAW)
  let g := g.emit (.glBindBuffer .GL_ELEMENT_ARRAY_BUFFER w.EBO)
  let g := g.emit (.glBufferData .GL_ELEMENT_ARRAY_BUFFER (indices.length * sizeof_unsigned_int)
    (.uints indices) .GL_STATIC_DRAW)
  let g := g.emit (.glVertexAttribPointer 0 2 .GL_FLOAT false (4 * sizeof_float) 0)
  let g := g.emit (.glEnableVertexAttribArray 0)
  let g := g.emit (.glVertexAttribPointer 1 2 .GL_FLOAT false (4 * sizeof_float)
    (2 * sizeof_float))
  let g := g.emit (.glEnableVertexAttribArray 1)
  (w, g)

def MyGLArea.on_realize (drv : Driver) (w : MyGLArea) (g : Gpu) : MyGLArea × Gpu :=
  let g := g.emit .GLArea_on_realize
  let g := g.emit .make_current
  let g := g.emit .glGetError
  if drv.glGetError ≠ GL_NO_ERROR then
    (w, g.say (.g_warning "Failed to initialize OpenGL context" []))
  else
    let (w, g) := w.init_buffers drv g
    let (shader_program, g) := create_shader_program drv g
    let w := { w with shader_program := shader_program }
    let w := { w with initialized := true }
    (w, g)

def MyGLArea.on_unrealize (w : MyGLArea) (g : Gpu) : MyGLArea × Gpu :=
  let g := g.emit .make_current
  let (w, g) :=
    if w.initialized then
      let g := g.emit (.glDeleteBuffers 1 w.VBO)
      let g := g.emit (.glDeleteBuffers 1 w.EBO)
      let g := g.emit (.glDeleteVertexArrays 1 w.VAO)
      let g := g.emit (.glDeleteTextures 1 w.texture)
      let g := g.emit (.glDeleteProgram w.shader_program)
      ({ w with initialized := false }, g)
    else (w, g)
  (w, g.emit .GLArea_on_unrealize)

def MyGLArea.on_render (w : MyGLArea) (g : Gpu) : Bool × MyGLArea × Gpu :=
  if !w.initialized then
    (false, w, g)
  else
    let g := g.emit (.glClear [.GL_COLOR_BUFFER_BIT, .GL_DEPTH_BUFFER_BIT])
    let g := g.emit (.glUseProgram w.shader_program)
    let g := g.emit (.glBindTexture .GL_TEXTURE_2D w.texture)
    let g := g.emit (.glBindVertexArray w.VAO)
    let g := g.emit (.glDrawElements .GL_TRIANGLES 6 .GL_UNSIGNED_INT 0)
    (true, w, g)

/-! ## The procedural `on_render` (texture_example.c) -/

/-- The function-local statics of the procedural `on_render`. -/
structure Statics where
  texture : GLuint
  VAO : GLuint
  VBO : GLuint
  EBO : GLuint
  shader_program : GLuint
  initialized : Bool
  deriving DecidableEq

/-- The statics at program start: zero-initialised handles and
`initialized = FALSE`. -/
def Statics.start : Statics := ⟨0, 0, 0, 0, 0, false⟩

def on_render (drv : Driver) (st : Statics) (g : Gpu) : Bool × Statics × Gpu :=
  let (st, g) :=
    if !st.initialized then
      -- Load texture
      let (texture, g) := g.gen drv
      let g := g.emit (.glGenTextures 1 texture)
      let st := { st with texture := texture }
      let g := g.emit (.glBindTexture .GL_TEXTURE_2D st.texture)
      let g := g.emit (.glTexParameteri .GL_TEXTURE_2D .GL_TEXTURE_WRAP_S .GL_REPEAT)
      let g := g.emit (.glTexParameteri .GL_TEXTURE_2D .GL_TEXTURE_WRAP_T .GL_REPEAT)
      let g := g.emit (.glTexParameteri .GL_TEXTURE_2D .GL_TEXTURE_MIN_FILTER .GL_LINEAR)
      let g := g.emit (.glTexParameteri .GL_TEXTURE_2D .GL_TEXTURE_MAG_FILTER .GL_LINEAR)
      let g := g.emit (.stbi_load "GTK.png" 4)
      let g :=
        match drv.image with
        | some image =>
          let g := g.say (.printf "Image loaded: %dx%d, %d channels\n"
            [.int image.width, .int image.height, .int image.channels])
          let g := g.emit (.glTexImage2D .GL_TEXTURE_2D 0 .GL_RGBA image.width image.height 0
            .GL_RGBA .GL_UNSIGNED_BYTE image.pixels)
          let g := g.emit (.glGenerateMipmap .GL_TEXTURE_2D)
          g.emit .stbi_image_free
        | none => g.say (.g_warning "Failed to load texture" [])
      -- Set up vertex data
      let (VAO, g) := g.gen drv
      let g := g.emit (.glGenVertexArrays 1 VAO)
      let st := { st with VAO := VAO }
      let (VBO, g) := g.gen drv
      let g := g.emit (.glGenBuffers 1 VBO)
      let st := { st with VBO := VBO }
      let (EBO, g) := g.gen drv
      let g := g.emit (.glGenBuffers 1 EBO)
      let st := { st with EBO := EBO }
      let g := g.emit (.glBindVertexArray st.VAO)
      let g := g.emit (.glBindBuffer .GL_ARRAY_BUFFER st.VBO)
      let g := g.emit (.glBufferData .GL_ARRAY_BUFFER (vertices.length * sizeof_float)
        (.floats vertices) .GL_STATIC_DRAW)
      let g := g.emit (.glBindBuffer .GL_ELEMENT_ARRAY_BUFFER st.EBO)
      let g := g.emit (.glBufferData .GL_ELEMENT_ARRAY_BUFFER
        (indices.length * sizeof_unsigned_int) (.uints indices) .GL_STATIC_DRAW)
      let g := g.emit (.glVertexAttribPointer 0 2 .GL_FLOAT false (4 * sizeof_float) 0)
      let g := g.emit (.glEnableVertexAttribArray 0)
      let g := g.emit (.glVertexAttribPointer 1 2 .GL_FLOAT false (4 * sizeof_float)
        (2 * sizeof_float))
      let g := g.emit (.glEnableVertexAttribArray 1)
      let (shader_program, g) := create_shader_program drv g
      let st := { st with shader_program := shader_program }
      let st := { st with initialized := true }
      (st, g)
    else (st, g)
  let g := g.emit (.glClear [.GL_COLOR_BUFFER_BIT])
  let g := g.emit (.glUseProgram st.shader_program)
  let g := g.emit (.glBindTexture .GL_TEXTURE_2D st.texture)
  let g := g.emit (.glBindVertexArray st.VAO)
  let g := g.emit (.glDrawElements .GL_TRIANGLES 6 .GL_UNSIGNED_INT 0)
  (true, st, g)

/-- The toolkit delivering the `render` signal `n` times in a row: the
return values in order, and the statics and the boundary after the last
call. -/
def renders (drv : Driver) : Nat → Statics → Gpu → List Bool × Statics × Gpu
  | 0, st, g => ([], st, g)
  | n + 1, st, g =>
    let (r, st, g) := on_render drv st g
    let (rs, st, g) := renders drv n st g
    (r :: rs, st, g)

/-- The indexed draws. -/
def Call.isDraw : Call → Bool
  | .glDrawElements _ _ _ _ => true
  | _ => false

/-- The five calls by which the procedural `on_render` draws a frame. -/
def frameCalls (st : Statics) : List Call :=
  [.glClear [.GL_COLOR_BUFFER_BIT], .glUseProgram st.shader_program,
    .glBindTexture .GL_TEXTURE_2D st.texture, .glBindVertexArray st.VAO,
    .glDrawElements .GL_TRIANGLES 6 .GL_UNSIGNED_INT 0]

/-- The messages of the texture part of the procedural `on_render`. -/
def textureLogC (drv : Driver) : List Message :=
  match drv.image with
  | some image =>
    [.printf "Image loaded: %dx%d, %d channels\n"
      [.int image.width, .int image.height, .int image.channels]]
  | none => [.g_warning "Failed to load texture" []]

/-! ## The vertex stage of the mock GPU -/

structure Vec2 where
  x : GLfloat
  y : GLfloat
  deriving DecidableEq

structure Vec4 where
  x : GLfloat
  y : GLfloat
  z : GLfloat
  w : GLfloat
  deriving DecidableEq

/-- The `main` of `vertex_shader_src`: the outputs `gl_Position` and
`TexCoord` as functions of the inputs `aPos` and `aTexCoord`. -/
def vertex_shader_main (aPos aTexCoord : Vec2) : Vec4 × Vec2 :=
  (⟨aPos.x, aPos.y, 0, 1⟩, ⟨aTexCoord.x, 1 - aTexCoord.y⟩)

/-- The size in bytes and the data of the last `glBufferData` to a target. -/
def uploaded (target : GLenum) (calls : List Call) : Option (Nat × BufferData) :=
  calls.reverse.findSome? fun c =>
    match c with
    | .glBufferData t size data _ => if t = target then some (size, data) else none
    | _ => none

/-- The component count, stride and byte offset of the last
`glVertexAttribPointer` for a float attribute. -/
def attribPointer (index : Nat) (calls : List Call) : Option (Nat × Nat × Nat) :=
  calls.reverse.findSome? fun c =>
    match c with
    | .glVertexAttribPointer i size .GL_FLOAT _ stride pointer =>
      if i = index then some (size, stride, pointer) else none
    | _ => none

/-- Read `size` floats at a byte offset of a buffer of `bytes` bytes; the
read must be float-aligned and lie inside the buffer. -/
def fetchFloats (bytes : Nat) (data : List GLfloat) (offset size : Nat) :
    Option (List GLfloat) :=
  if offset % sizeof_float = 0 ∧ offset + size * sizeof_float ≤ bytes then
    some ((data.drop (offset / sizeof_float)).take size)
  else none

/-- The two-component attribute `index` of vertex `i`, fetched from the
array buffer through the attribute pointer. -/
def fetchAttrib (calls : List Call) (index i : Nat) : Option Vec2 :=
  match uploaded .GL_ARRAY_BUFFER calls, attribPointer index calls with
  | some (bytes, .floats data), some (size, stride, pointer) =>
    match fetchFloats bytes data (pointer + stride * i) size with
    | some [a, b] => some ⟨a, b⟩
    | _ => none
  | _, _ => none

/-- The vertex shader run on vertex `i`. -/
def drawVertex (calls : List Call) (i : Nat) : Option (Vec4 × Vec2) :=
  match fetchAttrib calls 0 i, fetchAttrib calls 1 i with
  | some aPos, some aTexCoord => some (vertex_shader_main aPos aTexCoord)
  | _, _ => none

/-- A concrete driver: names 1, 2, 3, ..., everything compiles and links,
and `GTK.png` cannot be decoded. -/
def Driver.noImage : Driver where
  glGetError := GL_NO_ERROR
  genName := fun k => k + 1
  compileStatus := fun _ _ => true
  shaderInfoLog := fun _ _ => []
  linkStatus := true
  programInfoLog := []
  image := none

/-! ## Classifying calls -/

/-- The calls that free a GPU object. -/
def Call.isDelete : Call → Bool
  | .glDeleteShader _ => true
  | .glDeleteBuffers _ _ => true
  | .glDeleteVertexArrays _ _ => true
  | .glDeleteTextures _ _ => true
  | .glDeleteProgram _ => true
  | _ => false

/-- The calls that create a GPU object. -/
def Call.isCreate : Call → Bool
  | .glCreateShader _ _ => true
  | .glCreateProgram _ => true
  | .glGenTextures _ _ => true
  | .glGenVertexArrays _ _ => true
  | .glGenBuffers _ _ => true
  | _ => false

/-- The calls by which a stage is compiled: creating the shader object,
giving it its source, compiling it. -/
def Call.isCompileStep : Call → Bool
  | .glCreateShader _ _ => true
  | .glShaderSource _ _ _ => true
  | .glCompileShader _ => true
  | _ => false

/-- The calls that upload pixels or build mipmaps. -/
def Call.isPixelUpload : Call → Bool
  | .glTexImage2D _ _ _ _ _ _ _ _ _ => true
  | .glGenerateMipmap _ => true
  | _ => false

/-- The name of the shader object a call creates. -/
def Call.createdShader : Call → Option GLuint
  | .glCreateShader _ ret => some ret
  | _ => none

/-- A concrete driver: names 1, 2, 3, ..., everything compiles and links,
and `GTK.png` decodes to a 2x2 opaque red image. -/
def Driver.ok : Driver where
  glGetError := GL_NO_ERROR
  genName := fun k => k + 1
  compileStatus := fun _ _ => true
  shaderInfoLog := fun _ _ => []
  linkStatus := true
  programInfoLog := []
  image := some ⟨2, 2, 4, [255, 0, 0, 255, 255, 0, 0, 255, 255, 0, 0, 255, 255, 0, 0, 255]⟩

/-! ## Shader objects in the mock GPU -/

/-- The shader and program objects the mock GPU holds: the shader objects
that exist, the program objects that exist, which shader is attached to which
program (program first), and the shader objects flagged for deletion. -/
structure Objects where
  shaders : List GLuint
  programs : List GLuint
  attached : List (GLuint × GLuint)
  flagged : List GLuint
  deriving DecidableEq

/-- No object exists. -/
def Objects.empty : Objects := ⟨[], [], [], []⟩

/-- The effect of one call on the objects, by the rules of OpenGL: a
creation that returns 0 has created nothing; `glAttachShader` attaches an
existing shader to an existing program unless it is attached already;
`glDeleteShader` frees a shader that is attached to no program, and only
flags for deletion one that is attached to a program.  Deleting a program is
not covered (the result is `none`); every other call leaves the objects as
they are. -/
def Objects.step (o : Objects) : Call → Option Objects
  | .glCreateShader _ ret =>
    some (if ret = 0 then o else { o with shaders := o.shaders ++ [ret] })
  | .glCreateProgram ret =>
    some (if ret = 0 then o else { o with programs := o.programs ++ [ret] })
  | .glAttachShader program shader =>
    some (if program ∈ o.programs ∧ shader ∈ o.shaders ∧ (program, shader) ∉ o.attached then
      { o with attached := o.attached ++ [(program, shader)] } else o)
  | .glDeleteShader shader =>
    some (if shader ∈ o.shaders then
      (if o.attached.any (fun a => a.2 = shader) then
        { o with flagged := o.flagged ++ [shader] }
      else { o with shaders := o.shaders.filter (fun s => s ≠ shader),
                    flagged := o.flagged.filter (fun s => s ≠ shader) })
    else o)
  | .glDeleteProgram _ => Option.none
  | _ => some o

/-- The objects that a sequence of calls leaves, starting with none. -/
def objectsAfter (calls : List Call) : Option Objects :=
  calls.foldlM Objects.step Objects.empty

/-! ## What each operation adds to the boundary

The calls and messages of one operation, written as functions of the
driver's answers, and the equations that relate them to the operations. -/

/-- The calls of one `compile_shader` that obtained the name `shader`. -/
def compileCalls (drv : Driver) (type : GLenum) (src : String) (shader : GLuint) : List Call :=
  [.glCreateShader type shader, .glShaderSource shader 1 src, .glCompileShader shader,
    .glGetShaderiv shader .GL_COMPILE_STATUS] ++
  (if drv.compileStatus type src then [] else [.glGetShaderInfoLog shader 512])

/-- The messages of one `compile_shader`. -/
def compileLog (drv : Driver) (type : GLenum) (src : String) : List Message :=
  if drv.compileStatus type src then []
  else [.g_warning "Shader compilation failed: %s"
    [.str (readInfoLog 512 (drv.shaderInfoLog type src))]]

/-- The calls of `create_shader_program` from the linking on, for the names
`vs`, `fs` and `p` of the two shaders and of the program. -/
def linkCalls (drv : Driver) (vs fs p : GLuint) : List Call :=
  [.glCreateProgram p, .glAttachShader p vs, .glAttachShader p fs, .glLinkProgram p,
    .glGetProgramiv p .GL_LINK_STATUS] ++
  (if drv.linkStatus then [] else [.glGetProgramInfoLog p 512]) ++
  [.glDeleteShader vs, .glDeleteShader fs]

/-- The messages of the linking step. -/
def linkLog (drv : Driver) : List Message :=
  if drv.linkStatus then []
  else [.g_warning "Shader program linking failed: %s"
    [.str (readInfoLog 512 drv.programInfoLog)]]

/-- The calls of `create_shader_program` when `k` names were handed out before. -/
def buildCalls (drv : Driver) (k : Nat) : List Call :=
  compileCalls drv .GL_VERTEX_SHADER vertex_shader_src (drv.genName k) ++
  compileCalls drv .GL_FRAGMENT_SHADER fragment_shader_src (drv.genName (k + 1)) ++
  linkCalls drv (drv.genName k) (drv.genName (k + 1)) (drv.genName (k + 2))

/-- The messages of `create_shader_program`. -/
def buildLog (drv : Driver) : List Message :=
  compileLog drv .GL_VERTEX_SHADER vertex_shader_src ++
  compileLog drv .GL_FRAGMENT_SHADER fragment_shader_src ++ linkLog drv

/-- The calls of the texture part of `init_buffers` for the name `texture`. -/
def textureCalls (drv : Driver) (texture : GLuint) : List Call :=
  [.glGenTextures 1 texture, .glBindTexture .GL_TEXTURE_2D texture,
    .glTexParameteri .GL_TEXTURE_2D .GL_TEXTURE_WRAP_S .GL_REPEAT,
    .glTexParameteri .GL_TEXTURE_2D .GL_TEXTURE_WRAP_T .GL_REPEAT,
    .glTexParameteri .GL_TEXTURE_2D .GL_TEXTURE_MIN_FILTER .GL_LINEAR,
    .glTexParameteri .GL_TEXTURE_2D .GL_TEXTURE_MAG_FILTER .GL_LINEAR,
    .stbi_load "GTK.png" 4] ++
  (match drv.image with
    | some image =>
      [.glTexImage2D .GL_TEXTURE_2D 0 .GL_RGBA image.width image.height 0 .GL_RGBA
        .GL_UNSIGNED_BYTE image.pixels, .glGenerateMipmap .GL_TEXTURE_2D, .stbi_image_free]
    | none => [])

/-- The messages of the texture part of `init_buffers`. -/
def textureLog (drv : Driver) : List Message :=
  match drv.image with
  | some image =>
    [.g_print "Image loaded: %dx%d, %d channels\n"
      [.int image.width, .int image.height, .int image.channels]]
  | none => [.g_warning "Failed to load texture" []]

/-- The calls of the geometry part of `init_buffers`. -/
def geometryCalls (VAO VBO EBO : GLuint) : List Call :=
  [.glGenVertexArrays 1 VAO, .glGenBuffers 1 VBO, .glGenBuffers 1 EBO, .glBindVertexArray VAO,
    .glBindBuffer .GL_ARRAY_BUFFER VBO,
    .glBufferData .GL_ARRAY_BUFFER 64 (.floats vertices) .GL_STATIC_DRAW,
    .glBindBuffer .GL_ELEMENT_ARRAY_BUFFER EBO,
    .glBufferData .GL_ELEMENT_ARRAY_BUFFER 24 (.uints indices) .GL_STATIC_DRAW,
    .glVertexAttribPointer 0 2 .GL_FLOAT false 16 0, .glEnableVertexAttribArray 0,
    .glVertexAttribPointer 1 2 .GL_FLOAT false 16 8, .glEnableVertexAttribArray 1]

/-- The calls of texture and geometry set-up when `k` names were handed out
before. -/
def setupCalls (drv : Driver) (k : Nat) : List Call :=
  textureCalls drv (drv.genName k) ++
  geometryCalls (drv.genName (k + 1)) (drv.genName (k + 2)) (drv.genName (k + 3))

/-! ## The operations as equations

Each operation appends to the boundary; these lemmas say what. -/

theorem emitted_append (g : Gpu) (xs : List Call) (l : List Message) (n : Nat) :
    emitted g ⟨g.calls ++ xs, l, n⟩ = xs := by
  simp [emitted]

theorem logged_append (g : Gpu) (c : List Call) (ms : List Message) (n : Nat) :
    logged g ⟨c, g.log ++ ms, n⟩ = ms := by
  simp [logged]

theorem readInfoLog_length (bufSize : Nat) (full : CString) :
    (readInfoLog bufSize full).length ≤ bufSize - 1 := by
  unfold readInfoLog
  refine le_trans (List.Sublist.length_le (List.takeWhile_sublist _)) ?_
  rw [List.length_take]
  exact Nat.min_le_left _ _

theorem compile_shader_eq (drv : Driver) (type : GLenum) (src : String) (g : Gpu) :
    compile_shader drv type src g =
      (drv.genName g.names,
        ⟨g.calls ++ compileCalls drv type src (drv.genName g.names),
          g.log ++ compileLog drv type src, g.names + 1⟩) := by
  cases h : drv.compileStatus type src <;>
    simp [compile_shader, compileCalls, compileLog, Gpu.gen, Gpu.emit, Gpu.say, h]

theorem create_shader_program_eq (drv : Driver) (g : Gpu) :
    create_shader_program drv g =
      (drv.genName (g.names + 2),
        ⟨g.calls ++ buildCalls drv g.names, g.log ++ buildLog drv, g.names + 3⟩) := by
  cases h : drv.linkStatus <;>
    simp [create_shader_program, compile_shader_eq, buildCalls, buildLog, linkCalls, linkLog,
      Gpu.gen, Gpu.emit, Gpu.say, h]

theorem init_buffers_eq (drv : Driver) (w : MyGLArea) (g : Gpu) :
    w.init_buffers drv g =
      ({ w with texture := drv.genName g.names, VAO := drv.genName (g.names + 1),
                VBO := drv.genName (g.names + 2), EBO := drv.genName (g.names + 3) },
        ⟨g.calls ++ setupCalls drv g.names, g.log ++ textureLog drv, g.names + 4⟩) := by
  cases h : drv.image <;>
    simp [MyGLArea.init_buffers, setupCalls, textureCalls, textureLog, geometryCalls, Gpu.gen,
      Gpu.emit, Gpu.say, h, vertices, indices, sizeof_float, sizeof_unsigned_int]

theorem on_realize_eq (drv : Driver) (w : MyGLArea) (g : Gpu)
    (h : drv.glGetError = GL_NO_ERROR) :
    w.on_realize drv g =
      (⟨drv.genName (g.names + 6), drv.genName g.names, drv.genName (g.names + 1),
          drv.genName (g.names + 2), drv.genName (g.names + 3), true⟩,
        ⟨g.calls ++ ([.GLArea_on_realize, .make_current, .glGetError] ++ setupCalls drv g.names
            ++ buildCalls drv (g.names + 4)),
          g.log ++ (textureLog drv ++ buildLog drv), g.names + 7⟩) := by
  simp [MyGLArea.on_realize, h, init_buffers_eq, create_shader_program_eq, Gpu.emit]

theorem on_unrealize_eq (w : MyGLArea) (g : Gpu) :
    w.on_unrealize g =
      ({ w with initialized := false },
        ⟨g.calls ++ ([.make_current] ++
            (if w.initialized then
              [.glDeleteBuffers 1 w.VBO, .glDeleteBuffers 1 w.EBO, .glDeleteVertexArrays 1 w.VAO,
                .glDeleteTextures 1 w.texture, .glDeleteProgram w.shader_program]
             else []) ++ [.GLArea_on_unrealize]),
          g.log, g.names⟩) := by
  obtain ⟨sp, t, a, b, e, i⟩ := w
  cases i <;> simp [MyGLArea.on_unrealize, Gpu.emit]

theorem on_render_first_eq (drv : Driver) (st : Statics) (g : Gpu)
    (h : st.initialized = false) :
    on_render drv st g =
      (true,
        ⟨drv.genName g.names, drv.genName (g.names + 1), drv.genName (g.names + 2),
          drv.genName (g.names + 3), drv.genName (g.names + 6), true⟩,
        ⟨g.calls ++ (setupCalls drv g.names ++ buildCalls drv (g.names + 4) ++
            frameCalls ⟨drv.genName g.names, drv.genName (g.names + 1),
              drv.genName (g.names + 2), drv.genName (g.names + 3),
              drv.genName (g.names + 6), true⟩),
          g.log ++ (textureLogC drv ++ buildLog drv), g.names + 7⟩) := by
  cases hi : drv.image <;>
    simp [on_render, h, create_shader_program_eq, setupCalls, textureCalls, textureLogC,
      geometryCalls, frameCalls, Gpu.gen, Gpu.emit, Gpu.say, hi, vertices, indices,
      sizeof_float, sizeof_unsigned_int]

theorem on_render_again_eq (drv : Driver) (st : Statics) (g : Gpu)
    (h : st.initialized = true) :
    on_render drv st g = (true, st, ⟨g.calls ++ frameCalls st, g.log, g.names⟩) := by
  simp [on_render, h, frameCalls, Gpu.emit]

theorem renders_again_eq (drv : Driver) (st : Statics) (h : st.initialized = true) (n : Nat) :
    ∀ g : Gpu, renders drv n st g =
      (List.replicate n true, st,
        ⟨g.calls ++ (List.replicate n (frameCalls st)).flatten, g.log, g.names⟩) := by
  induction n with
  | zero => intro g; simp [renders]
  | succ n ih =>
    intro g
    simp [renders, on_render_again_eq drv st g h, ih, List.replicate_succ]

theorem filter_flatten_replicate (p : Call → Bool) (l : List Call) (m : Nat) :
    ((List.replicate m l).flatten).filter p = (List.replicate m (l.filter p)).flatten := by
  induction m with
  | zero => rfl
  | succ m ih => simp [List.replicate_succ, ih]

theorem flatten_replicate_nil (m : Nat) :
    (List.replicate m ([] : List Call)).flatten = [] := by
  induction m with
  | zero => rfl
  | succ m ih => simp [List.replicate_succ, ih]

theorem flatten_replicate_singleton (c : Call) (m : Nat) :
    (List.replicate m [c]).flatten = List.replicate m c := by
  induction m with
  | zero => rfl
  | succ m ih => simp [List.replicate_succ, ih]

theorem uploaded_setup (drv : Driver) (k : Nat) :
    uploaded .GL_ARRAY_BUFFER (setupCalls drv k) = some (64, .floats vertices) ∧
      uploaded .GL_ELEMENT_ARRAY_BUFFER (setupCalls drv k) = some (24, .uints indices) ∧
      attribPointer 0 (setupCalls drv k) = some (2, 16, 0) ∧
      attribPointer 1 (setupCalls drv k) = some (2, 16, 8) := by
  simp [uploaded, attribPointer, setupCalls, geometryCalls, List.reverse_append,
    List.findSome?_append, List.findSome?]

theorem foldlM_compileCalls (drv : Driver) (type : GLenum) (src : String) (shader : GLuint)
    (o : Objects) :
    (compileCalls drv type src shader).foldlM Objects.step o =
      some (if shader = 0 then o else { o with shaders := o.shaders ++ [shader] }) := by
  cases h : drv.compileStatus type src <;>
    simp [compileCalls, h, Objects.step]

theorem foldlM_linkCalls (drv : Driver) (vs fs p : GLuint)
    (hp : p ≠ 0) (hvf : vs ≠ fs) :
    (linkCalls drv vs fs p).foldlM Objects.step ⟨[vs, fs], [], [], []⟩ =
      some ⟨[vs, fs], [p], [(p, vs), (p, fs)], [vs, fs]⟩ := by
  have hfv : fs ≠ vs := fun h => hvf h.symm
  cases h : drv.linkStatus <;>
    simp [linkCalls, h, Objects.step, hp, hvf, hfv]

/-! ## The claims -/

/-- C1: while `initialized` is false, `on_render` returns false, makes no
call across the boundary, logs nothing and leaves every stored field as it
was. -/
theorem on_render_not_ready (w : MyGLArea) (g : Gpu) (h : w.initialized = false) :
    (w.on_render g).1 = false ∧ emitted g (w.on_render g).2.2 = [] ∧
      (w.on_render g).2.2 = g ∧ (w.on_render g).2.1 = w := by
  simp [MyGLArea.on_render, h, emitted]

/-- Witness of C1 on a newly constructed widget. -/
theorem on_render_not_ready_witness :
    MyGLArea.new.initialized = false ∧
      ((MyGLArea.new.on_render Gpu.fresh).1 = false ∧
        emitted Gpu.fresh (MyGLArea.new.on_render Gpu.fresh).2.2 = [] ∧
        (MyGLArea.new.on_render Gpu.fresh).2.2 = Gpu.fresh ∧
        (MyGLArea.new.on_render Gpu.fresh).2.1 = MyGLArea.new) :=
  ⟨rfl, on_render_not_ready MyGLArea.new Gpu.fresh rfl⟩

/-- C2: `on_unrealize` is idempotent.  For every widget state, a second
`on_unrealize` leaves the widget as the first one left it (with `initialized`
false), and the second call frees nothing: all it does is `make_current` and
the parent handler. -/
theorem on_unrealize_idempotent (w : MyGLArea) (g : Gpu) :
    ((w.on_unrealize g).1.on_unrealize (w.on_unrealize g).2).1 = (w.on_unrealize g).1 ∧
      (w.on_unrealize g).1.initialized = false ∧
      emitted (w.on_unrealize g).2 ((w.on_unrealize g).1.on_unrealize (w.on_unrealize g).2).2
        = [.make_current, .GLArea_on_unrealize] ∧
      (∀ c ∈ emitted (w.on_unrealize g).2
          ((w.on_unrealize g).1.on_unrealize (w.on_unrealize g).2).2, c.isDelete = false) := by
  simp [on_unrealize_eq, emitted, Call.isDelete]

/-- C3 as stated fails: after a successful `on_realize` followed by
`on_unrealize`, on a driver that hands out the names 1, 2, 3, ..., the five
stored handles are not zero (they are still 7, 1, 2, 3, 4). -/
theorem handles_not_cleared :
    ¬ (((MyGLArea.new.on_realize Driver.ok Gpu.fresh).1.on_unrealize
          (MyGLArea.new.on_realize Driver.ok Gpu.fresh).2).1.initialized = false ∧
        ((MyGLArea.new.on_realize Driver.ok Gpu.fresh).1.on_unrealize
          (MyGLArea.new.on_realize Driver.ok Gpu.fresh).2).1.VBO = 0 ∧
        ((MyGLArea.new.on_realize Driver.ok Gpu.fresh).1.on_unrealize
          (MyGLArea.new.on_realize Driver.ok Gpu.fresh).2).1.EBO = 0 ∧
        ((MyGLArea.new.on_realize Driver.ok Gpu.fresh).1.on_unrealize
          (MyGLArea.new.on_realize Driver.ok Gpu.fresh).2).1.VAO = 0 ∧
        ((MyGLArea.new.on_realize Driver.ok Gpu.fresh).1.on_unrealize
          (MyGLArea.new.on_realize Driver.ok Gpu.fresh).2).1.texture = 0 ∧
        ((MyGLArea.new.on_realize Driver.ok Gpu.fresh).1.on_unrealize
          (MyGLArea.new.on_realize Driver.ok Gpu.fresh).2).1.shader_program = 0) := by
  decide

/-- C3, amended: after a successful `on_realize` (no pending GL error)
followed by `on_unrealize`, `initialized` is false, `on_unrealize` has passed
each of the five stored names to its delete call exactly once (vertex buffer,
index buffer, vertex array, texture, program), these are the names `on_realize`
created, and the five stored fields still hold them. -/
theorem realize_then_unrealize (drv : Driver) (w : MyGLArea) (g : Gpu)
    (h : drv.glGetError = GL_NO_ERROR) :
    (w.on_realize drv g).1.initialized = true ∧
      ((w.on_realize drv g).1.on_unrealize (w.on_realize drv g).2).1.initialized = false ∧
      emitted (w.on_realize drv g).2
          ((w.on_realize drv g).1.on_unrealize (w.on_realize drv g).2).2 =
        [.make_current,
          .glDeleteBuffers 1 (w.on_realize drv g).1.VBO,
          .glDeleteBuffers 1 (w.on_realize drv g).1.EBO,
          .glDeleteVertexArrays 1 (w.on_realize drv g).1.VAO,
          .glDeleteTextures 1 (w.on_realize drv g).1.texture,
          .glDeleteProgram (w.on_realize drv g).1.shader_program,
          .GLArea_on_unrealize] ∧
      (emitted g (w.on_realize drv g).2).filter Call.isCreate =
        [.glGenTextures 1 (w.on_realize drv g).1.texture,
          .glGenVertexArrays 1 (w.on_realize drv g).1.VAO,
          .glGenBuffers 1 (w.on_realize drv g).1.VBO,
          .glGenBuffers 1 (w.on_realize drv g).1.EBO,
          .glCreateShader .GL_VERTEX_SHADER (drv.genName (g.names + 4)),
          .glCreateShader .GL_FRAGMENT_SHADER (drv.genName (g.names + 5)),
          .glCreateProgram (w.on_realize drv g).1.shader_program] ∧
      ((w.on_realize drv g).1.on_unrealize (w.on_realize drv g).2).1 =
        { (w.on_realize drv g).1 with initialized := false } := by
  rw [on_realize_eq drv w g h]
  refine ⟨rfl, ?_, ?_, ?_, ?_⟩
  · simp [on_unrealize_eq]
  · simp [on_unrealize_eq, emitted]
  · cases h1 : drv.image <;> cases h2 : drv.linkStatus <;>
      cases h3 : drv.compileStatus .GL_VERTEX_SHADER vertex_shader_src <;>
      cases h4 : drv.compileStatus .GL_FRAGMENT_SHADER fragment_shader_src <;>
      simp [emitted, setupCalls, textureCalls, geometryCalls, buildCalls, compileCalls,
        linkCalls, Call.isCreate, h1, h2, h3, h4, List.filter]
  · simp [on_unrealize_eq]

/-- Witness of C3 (amended) on the driver `Driver.ok`. -/
theorem realize_then_unrealize_witness :
    Driver.ok.glGetError = GL_NO_ERROR ∧
    ((MyGLArea.new.on_realize Driver.ok Gpu.fresh).1.initialized = true ∧
      ((MyGLArea.new.on_realize Driver.ok Gpu.fresh).1.on_unrealize
        (MyGLArea.new.on_realize Driver.ok Gpu.fresh).2).1.initialized = false ∧
      emitted (MyGLArea.new.on_realize Driver.ok Gpu.fresh).2
          ((MyGLArea.new.on_realize Driver.ok Gpu.fresh).1.on_unrealize
            (MyGLArea.new.on_realize Driver.ok Gpu.fresh).2).2 =
        [.make_current,
          .glDeleteBuffers 1 (MyGLArea.new.on_realize Driver.ok Gpu.fresh).1.VBO,
          .glDeleteBuffers 1 (MyGLArea.new.on_realize Driver.ok Gpu.fresh).1.EBO,
          .glDeleteVertexArrays 1 (MyGLArea.new.on_realize Driver.ok Gpu.fresh).1.VAO,
          .glDeleteTextures 1 (MyGLArea.new.on_realize Driver.ok Gpu.fresh).1.texture,
          .glDeleteProgram (MyGLArea.new.on_realize Driver.ok Gpu.fresh).1.shader_program,
          .GLArea_on_unrealize] ∧
      (emitted Gpu.fresh (MyGLArea.new.on_realize Driver.ok Gpu.fresh).2).filter Call.isCreate =
        [.glGenTextures 1 (MyGLArea.new.on_realize Driver.ok Gpu.fresh).1.texture,
          .glGenVertexArrays 1 (MyGLArea.new.on_realize Driver.ok Gpu.fresh).1.VAO,
          .glGenBuffers 1 (MyGLArea.new.on_realize Driver.ok Gpu.fresh).1.VBO,
          .glGenBuffers 1 (MyGLArea.new.on_realize Driver.ok Gpu.fresh).1.EBO,
          .glCreateShader .GL_VERTEX_SHADER (Driver.ok.genName (Gpu.fresh.names + 4)),
          .glCreateShader .GL_FRAGMENT_SHADER (Driver.ok.genName (Gpu.fresh.names + 5)),
          .glCreateProgram (MyGLArea.new.on_realize Driver.ok Gpu.fresh).1.shader_program] ∧
      ((MyGLArea.new.on_realize Driver.ok Gpu.fresh).1.on_unrealize
          (MyGLArea.new.on_realize Driver.ok Gpu.fresh).2).1 =
        { (MyGLArea.new.on_realize Driver.ok Gpu.fresh).1 with initialized := false }) :=
  ⟨rfl, realize_then_unrealize Driver.ok MyGLArea.new Gpu.fresh rfl⟩

/-- C4: whatever the two compile-status queries answer, `create_shader_program`
runs the compilation of each stage exactly once, the vertex stage first and
the fragment stage second: the shader-creating, source-setting and compiling
calls it makes are exactly these six, in this order. -/
theorem both_stages_compiled (drv : Driver) (g : Gpu) :
    (emitted g (create_shader_program drv g).2).filter Call.isCompileStep =
      [.glCreateShader .GL_VERTEX_SHADER (drv.genName g.names),
        .glShaderSource (drv.genName g.names) 1 vertex_shader_src,
        .glCompileShader (drv.genName g.names),
        .glCreateShader .GL_FRAGMENT_SHADER (drv.genName (g.names + 1)),
        .glShaderSource (drv.genName (g.names + 1)) 1 fragment_shader_src,
        .glCompileShader (drv.genName (g.names + 1))] := by
  rw [create_shader_program_eq]
  cases h2 : drv.linkStatus <;>
    cases h3 : drv.compileStatus .GL_VERTEX_SHADER vertex_shader_src <;>
    cases h4 : drv.compileStatus .GL_FRAGMENT_SHADER fragment_shader_src <;>
    simp [emitted, buildCalls, compileCalls, linkCalls, Call.isCompileStep, h2, h3, h4,
      List.filter]

/-- C5 as stated fails: on a driver that hands out the names 1, 2, 3, the
two shader objects that `create_shader_program` created are still live when
it returns.  Both are attached to the returned program 3 and never detached,
so the two `glDeleteShader` calls have only flagged them for deletion. -/
theorem shaders_live_after_build :
    objectsAfter (emitted Gpu.fresh (create_shader_program Driver.ok Gpu.fresh).2) =
        some ⟨[1, 2], [3], [(3, 1), (3, 2)], [1, 2]⟩ ∧
      ¬ (∀ s ∈ (emitted Gpu.fresh (create_shader_program Driver.ok Gpu.fresh).2).filterMap
            Call.createdShader,
          ∀ o, objectsAfter (emitted Gpu.fresh (create_shader_program Driver.ok Gpu.fresh).2)
            = some o → s ∉ o.shaders) := by
  have h : objectsAfter (emitted Gpu.fresh (create_shader_program Driver.ok Gpu.fresh).2) =
      some ⟨[1, 2], [3], [(3, 1), (3, 2)], [1, 2]⟩ := by decide
  refine ⟨h, fun hall => ?_⟩
  exact hall 1 (by decide) _ h (by decide)

/-- C5, amended: whatever the compile and link queries answer, the calls of
`create_shader_program` split around its one `glLinkProgram`: before it the
two shader objects are created and nothing is freed; after it nothing is
created and exactly two delete calls are made, one `glDeleteShader` for each
of the two shader objects.  The program that is linked is the one created
before the link and returned, and no `glDeleteProgram` is issued.  When the
driver has created the three objects (non-zero names, the two shaders
distinct), both shaders are attached to the returned program at return, so
the deletes have only flagged them: both shader objects and the program
still exist. -/
theorem shaders_deleted_after_link (drv : Driver) (g : Gpu) :
    (∃ pre post vs fs,
      emitted g (create_shader_program drv g).2 =
        pre ++ Call.glLinkProgram (create_shader_program drv g).1 :: post ∧
      pre.filterMap Call.createdShader = [vs, fs] ∧
      (∀ c ∈ pre, c.isDelete = false) ∧
      post.filter Call.isDelete = [.glDeleteShader vs, .glDeleteShader fs] ∧
      (∀ c ∈ post, c.isCreate = false) ∧
      (∀ c ∈ pre ++ post, ∀ p, c ≠ Call.glLinkProgram p) ∧
      Call.glCreateProgram (create_shader_program drv g).1 ∈ pre) ∧
    (drv.genName g.names ≠ 0 → drv.genName (g.names + 1) ≠ 0 →
      drv.genName (g.names + 2) ≠ 0 → drv.genName g.names ≠ drv.genName (g.names + 1) →
      objectsAfter (emitted g (create_shader_program drv g).2) =
        some ⟨[drv.genName g.names, drv.genName (g.names + 1)],
          [(create_shader_program drv g).1],
          [((create_shader_program drv g).1, drv.genName g.names),
            ((create_shader_program drv g).1, drv.genName (g.names + 1))],
          [drv.genName g.names, drv.genName (g.names + 1)]⟩) := by
  rw [create_shader_program_eq]
  refine ⟨⟨compileCalls drv .GL_VERTEX_SHADER vertex_shader_src (drv.genName g.names) ++
      compileCalls drv .GL_FRAGMENT_SHADER fragment_shader_src (drv.genName (g.names + 1)) ++
      [.glCreateProgram (drv.genName (g.names + 2)),
        .glAttachShader (drv.genName (g.names + 2)) (drv.genName g.names),
        .glAttachShader (drv.genName (g.names + 2)) (drv.genName (g.names + 1))],
    [.glGetProgramiv (drv.genName (g.names + 2)) .GL_LINK_STATUS] ++
      (if drv.linkStatus then [] else [.glGetProgramInfoLog (drv.genName (g.names + 2)) 512]) ++
      [.glDeleteShader (drv.genName g.names), .glDeleteShader (drv.genName (g.names + 1))],
    drv.genName g.names, drv.genName (g.names + 1), ?_⟩, ?_⟩
  · cases h2 : drv.linkStatus <;>
      cases h3 : drv.compileStatus .GL_VERTEX_SHADER vertex_shader_src <;>
      cases h4 : drv.compileStatus .GL_FRAGMENT_SHADER fragment_shader_src <;>
      simp [emitted, buildCalls, compileCalls, linkCalls, Call.isDelete, Call.isCreate,
        Call.createdShader, h2, h3, h4, List.filter, List.filterMap]
  · intro hv hf hp hvf
    simp only [emitted_append, objectsAfter, buildCalls, List.foldlM_append,
      foldlM_compileCalls, hv, hf, if_false, Option.some_bind, Option.bind_eq_bind,
      Objects.empty, List.nil_append, List.singleton_append]
    exact foldlM_linkCalls drv _ _ _ hp hvf

/-- Witness of C5 (amended) on the driver `Driver.ok`, whose names 1, 2, 3
are non-zero and distinct. -/
theorem shaders_deleted_after_link_witness :
    Driver.ok.genName Gpu.fresh.names ≠ 0 ∧ Driver.ok.genName (Gpu.fresh.names + 1) ≠ 0 ∧
      Driver.ok.genName (Gpu.fresh.names + 2) ≠ 0 ∧
      Driver.ok.genName Gpu.fresh.names ≠ Driver.ok.genName (Gpu.fresh.names + 1) ∧
      objectsAfter (emitted Gpu.fresh (create_shader_program Driver.ok Gpu.fresh).2) =
        some ⟨[Driver.ok.genName Gpu.fresh.names, Driver.ok.genName (Gpu.fresh.names + 1)],
          [(create_shader_program Driver.ok Gpu.fresh).1],
          [((create_shader_program Driver.ok Gpu.fresh).1, Driver.ok.genName Gpu.fresh.names),
            ((create_shader_program Driver.ok Gpu.fresh).1,
              Driver.ok.genName (Gpu.fresh.names + 1))],
          [Driver.ok.genName Gpu.fresh.names, Driver.ok.genName (Gpu.fresh.names + 1)]⟩ :=
  ⟨by decide, by decide, by decide, by decide,
    (shaders_deleted_after_link Driver.ok Gpu.fresh).2 (by decide) (by decide) (by decide)
      (by decide)⟩

/-- C6 as stated fails: on a driver whose decoder fails, `on_realize` does
create a texture object, and the stored texture handle is its name, not zero. -/
theorem texture_created_without_image :
    Driver.noImage.image = none ∧ Driver.noImage.glGetError = GL_NO_ERROR ∧
      ¬ ((∀ c ∈ emitted Gpu.fresh (MyGLArea.new.on_realize Driver.noImage Gpu.fresh).2,
            ∀ n t, c ≠ Call.glGenTextures n t) ∧
          (MyGLArea.new.on_realize Driver.noImage Gpu.fresh).1.texture = 0) := by
  refine ⟨rfl, rfl, ?_⟩
  rintro ⟨-, h⟩
  revert h
  decide

/-- C6, amended: when `stbi_load` returns null, `on_realize` (no pending GL
error) still generates a texture object, binds it, sets its four parameters
and stores its name; the texture step logs exactly one warning and issues
neither `glTexImage2D` nor `glGenerateMipmap`; the geometry is set up, the
shader program is built and stored, and `initialized` ends true.  The calls
of `on_realize` are the 22 listed ones followed by those of the shader build
(which starts after four names were handed out), and the only further
messages are those of the shader build. -/
theorem realize_without_image (drv : Driver) (w : MyGLArea) (g : Gpu)
    (himg : drv.image = none) (herr : drv.glGetError = GL_NO_ERROR) :
    emitted g (w.on_realize drv g).2 =
        [.GLArea_on_realize, .make_current, .glGetError,
          .glGenTextures 1 (w.on_realize drv g).1.texture,
          .glBindTexture .GL_TEXTURE_2D (w.on_realize drv g).1.texture,
          .glTexParameteri .GL_TEXTURE_2D .GL_TEXTURE_WRAP_S .GL_REPEAT,
          .glTexParameteri .GL_TEXTURE_2D .GL_TEXTURE_WRAP_T .GL_REPEAT,
          .glTexParameteri .GL_TEXTURE_2D .GL_TEXTURE_MIN_FILTER .GL_LINEAR,
          .glTexParameteri .GL_TEXTURE_2D .GL_TEXTURE_MAG_FILTER .GL_LINEAR,
          .stbi_load "GTK.png" 4,
          .glGenVertexArrays 1 (w.on_realize drv g).1.VAO,
          .glGenBuffers 1 (w.on_realize drv g).1.VBO,
          .glGenBuffers 1 (w.on_realize drv g).1.EBO,
          .glBindVertexArray (w.on_realize drv g).1.VAO,
          .glBindBuffer .GL_ARRAY_BUFFER (w.on_realize drv g).1.VBO,
          .glBufferData .GL_ARRAY_BUFFER 64 (.floats vertices) .GL_STATIC_DRAW,
          .glBindBuffer .GL_ELEMENT_ARRAY_BUFFER (w.on_realize drv g).1.EBO,
          .glBufferData .GL_ELEMENT_ARRAY_BUFFER 24 (.uints indices) .GL_STATIC_DRAW,
          .glVertexAttribPointer 0 2 .GL_FLOAT false 16 0, .glEnableVertexAttribArray 0,
          .glVertexAttribPointer 1 2 .GL_FLOAT false 16 8, .glEnableVertexAttribArray 1] ++
        emitted ⟨[], [], g.names + 4⟩ (create_shader_program drv ⟨[], [], g.names + 4⟩).2 ∧
      (w.on_realize drv g).1.texture = drv.genName g.names ∧
      (w.on_realize drv g).1.shader_program =
        (create_shader_program drv ⟨[], [], g.names + 4⟩).1 ∧
      (emitted g (w.on_realize drv g).2).filter Call.isPixelUpload = [] ∧
      logged g (w.init_buffers drv g).2 = [.g_warning "Failed to load texture" []] ∧
      logged g (w.on_realize drv g).2 =
        .g_warning "Failed to load texture" [] ::
          logged ⟨[], [], g.names + 4⟩ (create_shader_program drv ⟨[], [], g.names + 4⟩).2 ∧
      (w.on_realize drv g).1.initialized = true := by
  rw [on_realize_eq drv w g herr]
  simp only [init_buffers_eq, create_shader_program_eq, emitted_append, logged_append]
  refine ⟨?_, trivial, trivial, ?_, ?_, ?_, trivial⟩
  · simp only [emitted, setupCalls, textureCalls, geometryCalls, himg]
    simp
  · cases h2 : drv.linkStatus <;>
      cases h3 : drv.compileStatus .GL_VERTEX_SHADER vertex_shader_src <;>
      cases h4 : drv.compileStatus .GL_FRAGMENT_SHADER fragment_shader_src <;>
      simp [setupCalls, textureCalls, geometryCalls, buildCalls, compileCalls, linkCalls,
        Call.isPixelUpload, himg, h2, h3, h4, List.filter]
  · simp only [textureLog, himg]
  · simp only [logged, textureLog, himg]
    simp

/-- Witness of C6 (amended) on the driver `Driver.noImage`. -/
theorem realize_without_image_witness :
    Driver.noImage.image = none ∧ Driver.noImage.glGetError = GL_NO_ERROR ∧
    (emitted Gpu.fresh (MyGLArea.new.on_realize Driver.noImage Gpu.fresh).2 =
        [.GLArea_on_realize, .make_current, .glGetError,
          .glGenTextures 1 (MyGLArea.new.on_realize Driver.noImage Gpu.fresh).1.texture,
          .glBindTexture .GL_TEXTURE_2D (MyGLArea.new.on_realize Driver.noImage Gpu.fresh).1.texture,
          .glTexParameteri .GL_TEXTURE_2D .GL_TEXTURE_WRAP_S .GL_REPEAT,
          .glTexParameteri .GL_TEXTURE_2D .GL_TEXTURE_WRAP_T .GL_REPEAT,
          .glTexParameteri .GL_TEXTURE_2D .GL_TEXTURE_MIN_FILTER .GL_LINEAR,
          .glTexParameteri .GL_TEXTURE_2D .GL_TEXTURE_MAG_FILTER .GL_LINEAR,
          .stbi_load "GTK.png" 4,
          .glGenVertexArrays 1 (MyGLArea.new.on_realize Driver.noImage Gpu.fresh).1.VAO,
          .glGenBuffers 1 (MyGLArea.new.on_realize Driver.noImage Gpu.fresh).1.VBO,
          .glGenBuffers 1 (MyGLArea.new.on_realize Driver.noImage Gpu.fresh).1.EBO,
          .glBindVertexArray (MyGLArea.new.on_realize Driver.noImage Gpu.fresh).1.VAO,
          .glBindBuffer .GL_ARRAY_BUFFER (MyGLArea.new.on_realize Driver.noImage Gpu.fresh).1.VBO,
          .glBufferData .GL_ARRAY_BUFFER 64 (.floats vertices) .GL_STATIC_DRAW,
          .glBindBuffer .GL_ELEMENT_ARRAY_BUFFER (MyGLArea.new.on_realize Driver.noImage Gpu.fresh).1.EBO,
          .glBufferData .GL_ELEMENT_ARRAY_BUFFER 24 (.uints indices) .GL_STATIC_DRAW,
          .glVertexAttribPointer 0 2 .GL_FLOAT false 16 0, .glEnableVertexAttribArray 0,
          .glVertexAttribPointer 1 2 .GL_FLOAT false 16 8, .glEnableVertexAttribArray 1] ++
        emitted ⟨[], [], Gpu.fresh.names + 4⟩ (create_shader_program Driver.noImage ⟨[], [], Gpu.fresh.names + 4⟩).2 ∧
      (MyGLArea.new.on_realize Driver.noImage Gpu.fresh).1.texture = Driver.noImage.genName Gpu.fresh.names ∧
      (MyGLArea.new.on_realize Driver.noImage Gpu.fresh).1.shader_program =
        (create_shader_program Driver.noImage ⟨[], [], Gpu.fresh.names + 4⟩).1 ∧
      (emitted Gpu.fresh (MyGLArea.new.on_realize Driver.noImage Gpu.fresh).2).filter Call.isPixelUpload = [] ∧
      logged Gpu.fresh (MyGLArea.new.init_buffers Driver.noImage Gpu.fresh).2 = [.g_warning "Failed to load texture" []] ∧
      logged Gpu.fresh (MyGLArea.new.on_realize Driver.noImage Gpu.fresh).2 =
        .g_warning "Failed to load texture" [] ::
          logged ⟨[], [], Gpu.fresh.names + 4⟩ (create_shader_program Driver.noImage ⟨[], [], Gpu.fresh.names + 4⟩).2 ∧
      (MyGLArea.new.on_realize Driver.noImage Gpu.fresh).1.initialized = true) :=
  ⟨rfl, rfl, realize_without_image Driver.noImage MyGLArea.new Gpu.fresh rfl rfl⟩

/-- C7: in every state with `initialized` true, `on_render` returns true,
leaves all six stored fields unchanged, logs nothing, takes no object name
from the driver and makes exactly five calls: one clear (colour and depth),
`glUseProgram` of the stored program, `glBindTexture` of the stored texture,
`glBindVertexArray` of the stored vertex array, and one
`glDrawElements(GL_TRIANGLES, 6, GL_UNSIGNED_INT, 0)`. -/
theorem on_render_realized (w : MyGLArea) (g : Gpu) (h : w.initialized = true) :
    (w.on_render g).1 = true ∧ (w.on_render g).2.1 = w ∧
      emitted g (w.on_render g).2.2 =
        [.glClear [.GL_COLOR_BUFFER_BIT, .GL_DEPTH_BUFFER_BIT],
          .glUseProgram w.shader_program,
          .glBindTexture .GL_TEXTURE_2D w.texture,
          .glBindVertexArray w.VAO,
          .glDrawElements .GL_TRIANGLES 6 .GL_UNSIGNED_INT 0] ∧
      (∀ c ∈ emitted g (w.on_render g).2.2, c.isCreate = false) ∧
      (w.on_render g).2.2.names = g.names ∧ (w.on_render g).2.2.log = g.log := by
  simp [MyGLArea.on_render, h, emitted, Gpu.emit, Call.isCreate]

/-- Witness of C7 on the state `on_realize` reaches from a new widget. -/
theorem on_render_realized_witness :
    (MyGLArea.new.on_realize Driver.ok Gpu.fresh).1.initialized = true ∧
    (((MyGLArea.new.on_realize Driver.ok Gpu.fresh).1.on_render
          (MyGLArea.new.on_realize Driver.ok Gpu.fresh).2).1 = true ∧
      ((MyGLArea.new.on_realize Driver.ok Gpu.fresh).1.on_render
          (MyGLArea.new.on_realize Driver.ok Gpu.fresh).2).2.1 =
        (MyGLArea.new.on_realize Driver.ok Gpu.fresh).1 ∧
      emitted (MyGLArea.new.on_realize Driver.ok Gpu.fresh).2
          ((MyGLArea.new.on_realize Driver.ok Gpu.fresh).1.on_render
            (MyGLArea.new.on_realize Driver.ok Gpu.fresh).2).2.2 =
        [.glClear [.GL_COLOR_BUFFER_BIT, .GL_DEPTH_BUFFER_BIT],
          .glUseProgram (MyGLArea.new.on_realize Driver.ok Gpu.fresh).1.shader_program,
          .glBindTexture .GL_TEXTURE_2D (MyGLArea.new.on_realize Driver.ok Gpu.fresh).1.texture,
          .glBindVertexArray (MyGLArea.new.on_realize Driver.ok Gpu.fresh).1.VAO,
          .glDrawElements .GL_TRIANGLES 6 .GL_UNSIGNED_INT 0] ∧
      (∀ c ∈ emitted (MyGLArea.new.on_realize Driver.ok Gpu.fresh).2
          ((MyGLArea.new.on_realize Driver.ok Gpu.fresh).1.on_render
            (MyGLArea.new.on_realize Driver.ok Gpu.fresh).2).2.2, c.isCreate = false) ∧
      ((MyGLArea.new.on_realize Driver.ok Gpu.fresh).1.on_render
          (MyGLArea.new.on_realize Driver.ok Gpu.fresh).2).2.2.names =
        (MyGLArea.new.on_realize Driver.ok Gpu.fresh).2.names ∧
      ((MyGLArea.new.on_realize Driver.ok Gpu.fresh).1.on_render
          (MyGLArea.new.on_realize Driver.ok Gpu.fresh).2).2.2.log =
        (MyGLArea.new.on_realize Driver.ok Gpu.fresh).2.log) :=
  ⟨rfl, on_render_realized (MyGLArea.new.on_realize Driver.ok Gpu.fresh).1
    (MyGLArea.new.on_realize Driver.ok Gpu.fresh).2 rfl⟩

/-- C8: after `init_buffers`, the array buffer holds the 16 floats of the quad
in 64 bytes, the element buffer holds the indices 0,1,2,2,3,0 (all below 4),
attribute 0 is 2 floats at offset 0 and attribute 1 is 2 floats at offset 8,
both with stride 16.  For each vertex i < 4, the fetch of attribute 0 at byte
16*i gives (x, y) and the fetch of attribute 1 at byte 16*i+8 gives (u, v),
both inside the 64 bytes, with x, y in {-1, 1}, u = (x+1)/2, v = (y+1)/2, so
u, v in {0, 1}; and the vertex shader outputs the position (x, y, 0, 1) and
the texture coordinate (u, 1 - v). -/
theorem quad_roundtrip (drv : Driver) (w : MyGLArea) (g : Gpu) :
    uploaded .GL_ARRAY_BUFFER (emitted g (w.init_buffers drv g).2) =
        some (64, .floats vertices) ∧
      vertices.length = 16 ∧
      uploaded .GL_ELEMENT_ARRAY_BUFFER (emitted g (w.init_buffers drv g).2) =
        some (24, .uints [0, 1, 2, 2, 3, 0]) ∧
      (∀ k ∈ [0, 1, 2, 2, 3, 0], k < 4) ∧
      attribPointer 0 (emitted g (w.init_buffers drv g).2) = some (2, 16, 0) ∧
      attribPointer 1 (emitted g (w.init_buffers drv g).2) = some (2, 16, 8) ∧
      ∀ i : Fin 4, ∃ x y u v : GLfloat,
        fetchFloats 64 vertices (16 * i.val) 2 = some [x, y] ∧
        fetchFloats 64 vertices (16 * i.val + 8) 2 = some [u, v] ∧
        16 * i.val + 8 ≤ 64 ∧ 16 * i.val + 8 + 8 ≤ 64 ∧
        fetchAttrib (emitted g (w.init_buffers drv g).2) 0 i.val = some ⟨x, y⟩ ∧
        fetchAttrib (emitted g (w.init_buffers drv g).2) 1 i.val = some ⟨u, v⟩ ∧
        (x = -1 ∨ x = 1) ∧ (y = -1 ∨ y = 1) ∧
        u = (x + 1) / 2 ∧ v = (y + 1) / 2 ∧ (u = 0 ∨ u = 1) ∧ (v = 0 ∨ v = 1) ∧
        drawVertex (emitted g (w.init_buffers drv g).2) i.val =
          some (⟨x, y, 0, 1⟩, ⟨u, 1 - v⟩) := by
  simp only [init_buffers_eq, emitted_append]
  obtain ⟨h1, h2, h3, h4⟩ := uploaded_setup drv g.names
  refine ⟨h1, rfl, h2, by decide, h3, h4, ?_⟩
  intro i
  fin_cases i
  · refine ⟨-1, -1, 0, 0, ?_⟩
    simp [drawVertex, fetchAttrib, h1, h3, h4, fetchFloats, sizeof_float, vertices,
      vertex_shader_main]
  · refine ⟨1, -1, 1, 0, ?_⟩
    simp [drawVertex, fetchAttrib, h1, h3, h4, fetchFloats, sizeof_float, vertices,
      vertex_shader_main]
  · refine ⟨1, 1, 1, 1, ?_⟩
    simp [drawVertex, fetchAttrib, h1, h3, h4, fetchFloats, sizeof_float, vertices,
      vertex_shader_main]
  · refine ⟨-1, 1, 0, 1, ?_⟩
    simp [drawVertex, fetchAttrib, h1, h3, h4, fetchFloats, sizeof_float, vertices,
      vertex_shader_main]

/-- C9: diagnostics on failure and only on failure.  `compile_shader` logs
nothing when the compile status is true and exactly one warning, whose `%s`
argument is the info log read through the 512-byte buffer, when it is false;
`create_shader_program` logs the warnings of its two compilations followed by
one link warning exactly when the link status is false; it logs nothing if
and only if all three statuses are true; and every text that a message of
`compile_shader` or of `create_shader_program` carries has at most 511
chars. -/
theorem diagnostics_only_on_failure (drv : Driver) (type : GLenum) (src : String) (g : Gpu) :
    logged g (compile_shader drv type src g).2 =
        (if drv.compileStatus type src then []
         else [.g_warning "Shader compilation failed: %s"
            [.str (readInfoLog 512 (drv.shaderInfoLog type src))]]) ∧
      logged g (create_shader_program drv g).2 =
        logged g (compile_shader drv .GL_VERTEX_SHADER vertex_shader_src g).2 ++
        logged g (compile_shader drv .GL_FRAGMENT_SHADER fragment_shader_src g).2 ++
        (if drv.linkStatus then []
         else [.g_warning "Shader program linking failed: %s"
            [.str (readInfoLog 512 drv.programInfoLog)]]) ∧
      (logged g (create_shader_program drv g).2 = [] ↔
        (drv.compileStatus .GL_VERTEX_SHADER vertex_shader_src = true ∧
          drv.compileStatus .GL_FRAGMENT_SHADER fragment_shader_src = true ∧
          drv.linkStatus = true)) ∧
      (∀ m ∈ logged g (compile_shader drv type src g).2, ∀ t ∈ m.texts, t.length ≤ 511) ∧
      (∀ m ∈ logged g (create_shader_program drv g).2, ∀ t ∈ m.texts, t.length ≤ 511) := by
  simp only [compile_shader_eq, create_shader_program_eq, logged_append]
  have hlen : ∀ full : CString, (readInfoLog 512 full).length ≤ 511 :=
    fun full => readInfoLog_length 512 full
  have hc : ∀ (ty : GLenum) (sr : String), ∀ m ∈ compileLog drv ty sr,
      ∀ t ∈ m.texts, t.length ≤ 511 := by
    intro ty sr m hm t ht
    cases h : drv.compileStatus ty sr
    · simp only [compileLog, h, Bool.false_eq_true, if_false, List.mem_singleton] at hm
      subst hm
      simp only [Message.texts, Message.args, List.filterMap_cons, Arg.text,
        List.filterMap_nil, List.mem_singleton] at ht
      subst ht
      exact hlen _
    · simp [compileLog, h] at hm
  have hl : ∀ m ∈ linkLog drv, ∀ t ∈ m.texts, t.length ≤ 511 := by
    intro m hm t ht
    cases h : drv.linkStatus
    · simp only [linkLog, h, Bool.false_eq_true, if_false, List.mem_singleton] at hm
      subst hm
      simp only [Message.texts, Message.args, List.filterMap_cons, Arg.text,
        List.filterMap_nil, List.mem_singleton] at ht
      subst ht
      exact hlen _
    · simp [linkLog, h] at hm
  refine ⟨rfl, rfl, ?_, hc type src, ?_⟩
  · cases h1 : drv.compileStatus .GL_VERTEX_SHADER vertex_shader_src <;>
      cases h2 : drv.compileStatus .GL_FRAGMENT_SHADER fragment_shader_src <;>
      cases h3 : drv.linkStatus <;>
      simp [buildLog, compileLog, linkLog, h1, h2, h3]
  · intro m hm
    simp only [buildLog, List.mem_append] at hm
    rcases hm with (hm | hm) | hm
    · exact hc _ _ m hm
    · exact hc _ _ m hm
    · exact hl m hm

/-- C10: in the procedural variant, started with `initialized` false and
called n >= 1 times in a row, `on_render` returns TRUE every time; the statics
after the n calls are those the first call stored, with `initialized` true;
the calls made are those of the first call followed by n - 1 frames of five
calls each (clear, use the stored program, bind the stored texture, bind the
stored vertex array, draw 6 indices); over all n calls the object-creating
calls are exactly the seven of the first call (one `glGenTextures`, one
`glGenVertexArrays`, two `glGenBuffers`, and the two `glCreateShader` and one
`glCreateProgram` of the single shader build), and the draws are exactly n
`glDrawElements(GL_TRIANGLES, 6, GL_UNSIGNED_INT, 0)`, one of them in the
first call. -/
theorem render_initialises_once (drv : Driver) (st : Statics) (g : Gpu) (n : Nat)
    (hst : st.initialized = false) (hn : 1 ≤ n) :
    (renders drv n st g).1 = List.replicate n true ∧
      (renders drv n st g).2.1 = (on_render drv st g).2.1 ∧
      (renders drv n st g).2.1.initialized = true ∧
      emitted g (renders drv n st g).2.2 =
        emitted g (on_render drv st g).2.2 ++
          (List.replicate (n - 1)
            [.glClear [.GL_COLOR_BUFFER_BIT],
              .glUseProgram (on_render drv st g).2.1.shader_program,
              .glBindTexture .GL_TEXTURE_2D (on_render drv st g).2.1.texture,
              .glBindVertexArray (on_render drv st g).2.1.VAO,
              .glDrawElements .GL_TRIANGLES 6 .GL_UNSIGNED_INT 0]).flatten ∧
      (emitted g (renders drv n st g).2.2).filter Call.isCreate =
        [.glGenTextures 1 (on_render drv st g).2.1.texture,
          .glGenVertexArrays 1 (on_render drv st g).2.1.VAO,
          .glGenBuffers 1 (on_render drv st g).2.1.VBO,
          .glGenBuffers 1 (on_render drv st g).2.1.EBO,
          .glCreateShader .GL_VERTEX_SHADER (drv.genName (g.names + 4)),
          .glCreateShader .GL_FRAGMENT_SHADER (drv.genName (g.names + 5)),
          .glCreateProgram (on_render drv st g).2.1.shader_program] ∧
      (emitted g (on_render drv st g).2.2).filter Call.isCreate =
        (emitted g (renders drv n st g).2.2).filter Call.isCreate ∧
      (emitted g (on_render drv st g).2.2).filter Call.isDraw =
        [.glDrawElements .GL_TRIANGLES 6 .GL_UNSIGNED_INT 0] ∧
      (emitted g (renders drv n st g).2.2).filter Call.isDraw =
        List.replicate n (.glDrawElements .GL_TRIANGLES 6 .GL_UNSIGNED_INT 0) := by
  obtain ⟨m, rfl⟩ : ∃ m, n = m + 1 := ⟨n - 1, by omega⟩
  have hfirst := on_render_first_eq drv st g hst
  have hrest := renders_again_eq drv
    ⟨drv.genName g.names, drv.genName (g.names + 1), drv.genName (g.names + 2),
      drv.genName (g.names + 3), drv.genName (g.names + 6), true⟩ rfl m
  have hc : (setupCalls drv g.names ++ buildCalls drv (g.names + 4)).filter Call.isCreate =
      [.glGenTextures 1 (drv.genName g.names), .glGenVertexArrays 1 (drv.genName (g.names + 1)),
        .glGenBuffers 1 (drv.genName (g.names + 2)), .glGenBuffers 1 (drv.genName (g.names + 3)),
        .glCreateShader .GL_VERTEX_SHADER (drv.genName (g.names + 4)),
        .glCreateShader .GL_FRAGMENT_SHADER (drv.genName (g.names + 5)),
        .glCreateProgram (drv.genName (g.names + 6))] := by
    cases h1 : drv.image <;> cases h2 : drv.linkStatus <;>
      cases h3 : drv.compileStatus .GL_VERTEX_SHADER vertex_shader_src <;>
      cases h4 : drv.compileStatus .GL_FRAGMENT_SHADER fragment_shader_src <;>
      simp [setupCalls, textureCalls, geometryCalls, buildCalls, compileCalls,
        linkCalls, Call.isCreate, h1, h2, h3, h4, List.filter]
  have hd : (setupCalls drv g.names ++ buildCalls drv (g.names + 4)).filter Call.isDraw = [] := by
    cases h1 : drv.image <;> cases h2 : drv.linkStatus <;>
      cases h3 : drv.compileStatus .GL_VERTEX_SHADER vertex_shader_src <;>
      cases h4 : drv.compileStatus .GL_FRAGMENT_SHADER fragment_shader_src <;>
      simp [setupCalls, textureCalls, geometryCalls, buildCalls, compileCalls,
        linkCalls, Call.isDraw, h1, h2, h3, h4, List.filter]
  have hfc : ∀ s : Statics, (frameCalls s).filter Call.isCreate = [] := by
    intro s; simp [frameCalls, Call.isCreate, List.filter]
  have hfd : ∀ s : Statics, (frameCalls s).filter Call.isDraw =
      [.glDrawElements .GL_TRIANGLES 6 .GL_UNSIGNED_INT 0] := by
    intro s; simp [frameCalls, Call.isDraw, List.filter]
  simp only [renders, hfirst, hrest, emitted_append, List.append_assoc, Nat.add_sub_cancel]
  refine ⟨by simp [List.replicate_succ], trivial, trivial, ?_, ?_, ?_, ?_, ?_⟩
  · simp [emitted, frameCalls]
  · simp only [emitted_append, ← List.append_assoc, List.filter_append, hc, hfc,
      filter_flatten_replicate, flatten_replicate_nil, List.append_nil]
  · simp only [emitted_append, ← List.append_assoc, List.filter_append, hc, hfc,
      filter_flatten_replicate, flatten_replicate_nil, List.append_nil]
  · simp only [← List.append_assoc, List.filter_append, hd, hfd, List.nil_append]
  · simp only [emitted_append, ← List.append_assoc, List.filter_append, hd, hfd,
      filter_flatten_replicate, flatten_replicate_singleton, List.nil_append]
    simp [List.replicate_succ]

/-- Witness of C10: three calls in a row from the start state, on the
driver `Driver.ok`. -/
theorem render_initialises_once_witness :
    Statics.start.initialized = false ∧ 1 ≤ 3 ∧
    ((renders Driver.ok 3 Statics.start Gpu.fresh).1 = List.replicate 3 true ∧
      (renders Driver.ok 3 Statics.start Gpu.fresh).2.1 = (on_render Driver.ok Statics.start Gpu.fresh).2.1 ∧
      (renders Driver.ok 3 Statics.start Gpu.fresh).2.1.initialized = true ∧
      emitted Gpu.fresh (renders Driver.ok 3 Statics.start Gpu.fresh).2.2 =
        emitted Gpu.fresh (on_render Driver.ok Statics.start Gpu.fresh).2.2 ++
          (List.replicate (3 - 1)
            [.glClear [.GL_COLOR_BUFFER_BIT],
              .glUseProgram (on_render Driver.ok Statics.start Gpu.fresh).2.1.shader_program,
              .glBindTexture .GL_TEXTURE_2D (on_render Driver.ok Statics.start Gpu.fresh).2.1.texture,
              .glBindVertexArray (on_render Driver.ok Statics.start Gpu.fresh).2.1.VAO,
              .glDrawElements .GL_TRIANGLES 6 .GL_UNSIGNED_INT 0]).flatten ∧
      (emitted Gpu.fresh (renders Driver.ok 3 Statics.start Gpu.fresh).2.2).filter Call.isCreate =
        [.glGenTextures 1 (on_render Driver.ok Statics.start Gpu.fresh).2.1.texture,
          .glGenVertexArrays 1 (on_render Driver.ok Statics.start Gpu.fresh).2.1.VAO,
          .glGenBuffers 1 (on_render Driver.ok Statics.start Gpu.fresh).2.1.VBO,
          .glGenBuffers 1 (on_render Driver.ok Statics.start Gpu.fresh).2.1.EBO,
          .glCreateShader .GL_VERTEX_SHADER (Driver.ok.genName (Gpu.fresh.names + 4)),
          .glCreateShader .GL_FRAGMENT_SHADER (Driver.ok.genName (Gpu.fresh.names + 5)),
          .glCreateProgram (on_render Driver.ok Statics.start Gpu.fresh).2.1.shader_program] ∧
      (emitted Gpu.fresh (on_render Driver.ok Statics.start Gpu.fresh).2.2).filter Call.isCreate =
        (emitted Gpu.fresh (renders Driver.ok 3 Statics.start Gpu.fresh).2.2).filter Call.isCreate ∧
      (emitted Gpu.fresh (on_render Driver.ok Statics.start Gpu.fresh).2.2).filter Call.isDraw =
        [.glDrawElements .GL_TRIANGLES 6 .GL_UNSIGNED_INT 0] ∧
      (emitted Gpu.fresh (renders Driver.ok 3 Statics.start Gpu.fresh).2.2).filter Call.isDraw =
        List.replicate 3 (.glDrawElements .GL_TRIANGLES 6 .GL_UNSIGNED_INT 0)) :=
  ⟨rfl, by decide,
    render_initialises_once Driver.ok Statics.start Gpu.fresh 3 rfl (by decide)⟩

end GtkLoadTexture
